import Mathlib

/-!
Verification development for the NetaVerse reasoning engine
(`backend/agents/reasoning_agent.py`).  The Python source is shallowly
embedded: strings are Lean `String`s (lists of characters), Python `dict`
records become structures, optional dictionary keys become `Option` fields,
Python lists become Lean `List`s, and the engine's integer arithmetic is
`Nat` (all scores in the source are non-negative).  The wall clock
(`datetime.now()`) is made explicit as a `(year, month)` parameter `now`.
-/

namespace NetaVerse

/-! ### Python string primitives

Helpers mirroring the Python `str` operations used by the engine.  They are
written over `String.data : List Char` so that every definition is
executable and kernel-evaluable.
-/

/-- Python `s.lower()` (the source only ever lowercases ASCII text). -/
def pyLower (s : String) : String := ⟨s.data.map Char.toLower⟩

/-- Auxiliary for substring search over character lists. -/
def containsAux (n : List Char) : List Char → Bool
  | [] => n.isEmpty
  | c :: rest => List.isPrefixOf n (c :: rest) || containsAux n rest

/-- Python `needle in haystack` for strings: substring containment. -/
def pyContains (needle haystack : String) : Bool :=
  containsAux needle.data haystack.data

/-- Splitting on a (non-empty) separator `c0 :: cs`, Python `s.split(sep)`:
keeps empty fields, scans left to right, non-overlapping.  Structural
recursion on a fuel argument (each step consumes at least one character,
so any fuel above the subject's length suffices), so that the definition
reduces in the kernel. -/
def splitChars (c0 : Char) (cs : List Char) : Nat → List Char → List (List Char)
  | 0, _ => [[]]
  | _ + 1, [] => [[]]
  | fuel + 1, c :: rest =>
    if List.isPrefixOf (c0 :: cs) (c :: rest) then
      [] :: splitChars c0 cs fuel (rest.drop cs.length)
    else
      match splitChars c0 cs fuel rest with
      | [] => [[c]]
      | w :: ws => (c :: w) :: ws

/-- Python `s.split(sep)` for a non-empty separator. -/
def pySplitOn (sep s : String) : List String :=
  match sep.data with
  | [] => [s]
  | c0 :: cs => (splitChars c0 cs (s.data.length + 1) s.data).map (fun l => ⟨l⟩)

/-- Replacement of every occurrence of a (non-empty) pattern, Python
`s.replace(old, new)`; fuel as in `splitChars`. -/
def replaceChars (c0 : Char) (cs rep : List Char) : Nat → List Char → List Char
  | 0, l => l
  | _ + 1, [] => []
  | fuel + 1, c :: rest =>
    if List.isPrefixOf (c0 :: cs) (c :: rest) then
      rep ++ replaceChars c0 cs rep fuel (rest.drop cs.length)
    else
      c :: replaceChars c0 cs rep fuel rest

/-- Python `s.replace(old, new)` for a non-empty `old`. -/
def pyReplace (old new s : String) : String :=
  match old.data with
  | [] => s
  | c0 :: cs => ⟨replaceChars c0 cs new.data (s.data.length + 1) s.data⟩

/-- Python `s.strip()`: remove leading and trailing whitespace. -/
def pyStrip (s : String) : String :=
  ⟨((s.data.dropWhile Char.isWhitespace).reverse.dropWhile Char.isWhitespace).reverse⟩

/-- Auxiliary for whitespace splitting: words accumulated in reverse. -/
def splitWsAux : List Char → List Char → List (List Char)
  | [], cur => if cur.isEmpty then [] else [cur.reverse]
  | c :: rest, cur =>
    if c.isWhitespace then
      if cur.isEmpty then splitWsAux rest [] else cur.reverse :: splitWsAux rest []
    else
      splitWsAux rest (c :: cur)

/-- Python `s.split()` (no argument): split on whitespace runs, dropping
empty fields. -/
def pySplitWs (s : String) : List String :=
  (splitWsAux s.data []).map (fun l => ⟨l⟩)

/-- Auxiliary for `pyTitle`: the Boolean tracks whether the previous
character was alphabetic. -/
def titleAux : Bool → List Char → List Char
  | _, [] => []
  | prevAlpha, c :: rest =>
    if c.isAlpha then
      (if prevAlpha then c.toLower else c.toUpper) :: titleAux true rest
    else
      c :: titleAux false rest

/-- Python `s.title()`: first letter of every word upper-cased, the rest
lower-cased (ASCII, which is all the source feeds it). -/
def pyTitle (s : String) : String := ⟨titleAux false s.data⟩

/-- Python slice `l[-n:]`. -/
def lastN (n : Nat) (l : List α) : List α := l.drop (l.length - n)

/-! ### Data model

Record shapes of `reasoning_agent.py`.  Optional dictionary keys
(`d.get(k, default)` with a non-constant default, or keys that may be
absent) are `Option` fields; keys only ever read through `get(k, '')` are
also kept as `Option String` and read through `getD ""` to mirror the
source exactly.
-/

/-- Source `raw_data['wikipedia']`: a Wikipedia summary record; may be `{}`. -/
structure WikiData where
  extract : Option String := none
  title : Option String := none
  deriving DecidableEq, BEq

/-- One news article record from `raw_data['news']`. -/
structure NewsItem where
  title : Option String := none
  description : Option String := none
  publishedAt : Option String := none
  deriving DecidableEq, BEq

/-- The engine's input `raw_data`; both keys may be missing. -/
structure RawData where
  wikipedia : Option WikiData := none
  news : Option (List NewsItem) := none
  deriving DecidableEq, BEq

/-- Result records of `_analyze_real_activities`. -/
structure Activity where
  activity : String
  date : String
  category : String
  impact : String
  details : String
  deriving DecidableEq, BEq

/-- Result records of `_extract_real_promises` before fulfillment scoring
(the dict as first built by the two extraction loops). -/
structure PromiseBase where
  promise : String
  made_during : String
  evidence : String
  timeline : String
  impact : String
  deriving DecidableEq, BEq

/-- A fully scored promise (after `fulfillment_percentage` and `status`
have been added to the dict). -/
structure Promise where
  promise : String
  made_during : String
  evidence : String
  timeline : String
  impact : String
  fulfillment_percentage : Nat
  status : String
  deriving DecidableEq, BEq

/-- Result records of `_extract_real_legislative_record`. -/
structure Bill where
  title : String
  bill_number : String
  year : String
  description : String
  status : String
  role : String
  impact_area : String
  deriving DecidableEq, BEq

/-- One entry of `key_votes` in `_analyze_real_voting_patterns`. -/
structure KeyVote where
  issue : String
  position : String
  year : String
  deriving DecidableEq, BEq

/-- Result of `_analyze_real_voting_patterns`. -/
structure VotingRecord where
  key_votes : List KeyVote
  alignment : String
  deriving DecidableEq, BEq

/-- Result records of `_identify_real_controversies`. -/
structure Controversy where
  issue : String
  year : String
  resolution : String
  deriving DecidableEq, BEq

/-- Result of `_calculate_promise_metrics` in the non-empty case (the
empty-promises case returns `{}`, modelled as `Option.none` upstream). -/
structure PromiseMetrics where
  total_promises_tracked : Nat
  fulfilled_count : Nat
  partially_fulfilled_count : Nat
  in_progress_count : Nat
  not_fulfilled_count : Nat
  calculated_fulfillment_rate : String
  strongest_areas : List String
  weakest_areas : List String
  analysis_summary : String
  deriving DecidableEq, BEq

/-- Result of `_extract_basic_info`. -/
structure BasicInfo where
  party : String
  position : String
  term_period : String
  summary : String
  deriving DecidableEq, BEq

/-- The full report dict returned by `analyze`. -/
structure Report where
  politician : String
  party : String
  position : String
  term_period : String
  summary : String
  activities : List Activity
  promises : List Promise
  bills : List Bill
  promise_analysis : Option PromiseMetrics
  voting_record_summary : VotingRecord
  controversies : List Controversy
  data_sources : List String
  deriving DecidableEq, BEq

/-! ### Keyword tables

The constructor tables of `ReasoningAgent.__init__`, in Python dict
insertion order. -/

/-- Source `self.political_keywords`. -/
def political_keywords_positive : List String :=
  ["passed", "signed", "approved", "successful", "achieved", "delivered",
   "completed", "won", "elected", "implemented"]

/-- Source `self.political_keywords['negative']`. -/
def political_keywords_negative : List String :=
  ["failed", "rejected", "vetoed", "blocked", "unsuccessful", "delayed",
   "cancelled", "defeated", "resigned", "scandal"]

/-- Source `self.global_positions` (insertion order matters: it is iterated). -/
def global_positions : List (String × List String) :=
  [("president", ["president", "prime minister", "chancellor", "premier"]),
   ("legislature", ["senator", "mp", "member of parliament", "representative",
                    "deputy", "congressman"]),
   ("regional", ["governor", "mayor", "minister", "chief minister", "first minister"]),
   ("party", ["party leader", "opposition leader", "secretary general"])]

/-- Source `self.political_spectrum` (insertion order matters: it is iterated). -/
def political_spectrum : List (String × List String) :=
  [("left", ["labour", "social democratic", "socialist", "communist", "green",
             "progressive"]),
   ("center", ["liberal", "centrist", "moderate", "independent"]),
   ("right", ["conservative", "republican", "nationalist", "christian democratic"])]

/-! ### Regular-expression models

The source uses five `re.search` calls.  Each is modelled directly as a
leftmost search with the exact backtracking behaviour of the pattern in
question (greedy quantifiers try the longest extent first; alternatives are
tried left to right). -/

/-- Leftmost `re.search`: try the position matcher `f` at every suffix of
the subject, left to right (including the empty suffix at the end). -/
def reFind (f : List Char → Option α) : List Char → Option α
  | [] => f []
  | l@(_ :: rest) =>
    match f l with
    | some r => some r
    | none => reFind f rest

/-- The character class `[^,\.]` of the party patterns. -/
def noCommaDot (l : List Char) : Bool := l.all (fun c => c != ',' && c != '.')

/-- Matcher at one position for the party patterns, all of shape
`pre([^,\.]+party)post`: `pre` must match literally, then the capture is the
longest `t ++ "party"` with `t` a non-empty comma/dot-free run such that
`post` follows (greedy with backtracking). -/
def partyCapAt (pre post : List Char) (l : List Char) : Option (List Char) :=
  if List.isPrefixOf pre l then
    let r := l.drop pre.length
    (List.range r.length).reverse.findSome? (fun j =>
      let k := j + 1
      if noCommaDot (r.take k) &&
         List.isPrefixOf ("party".data ++ post) (r.drop k) then
        some (r.take k ++ "party".data)
      else none)
  else none

/-- The four `party_patterns` of `_identify_political_party`, given as the
literal text before and after the capture group `([^,\.]+party)`. -/
def party_patterns : List (String × String) :=
  [("member of the ", ""), ("", " member"), ("represents the ", ""),
   ("leader of the ", "")]

/-- The class `[^.]` of the bill-name pattern. -/
def noDot (l : List Char) : Bool := l.all (fun c => c != '.')

/-- Matcher at one position for `([A-Z][^.]*(?:act|bill|law))` with
`re.IGNORECASE` (so `[A-Z]` matches any ASCII letter; the subject is
already lower-cased by the caller): a letter, then the longest dot-free run
after which one of `act`/`bill`/`law` (tried in that order) matches. -/
def billCapAt (l : List Char) : Option (List Char) :=
  match l with
  | [] => none
  | c :: rest =>
    if c.isAlpha then
      (List.range (rest.length + 1)).reverse.findSome? (fun q =>
        if noDot (rest.take q) then
          if List.isPrefixOf "act".data (rest.drop q) then
            some (c :: (rest.take q ++ "act".data))
          else if List.isPrefixOf "bill".data (rest.drop q) then
            some (c :: (rest.take q ++ "bill".data))
          else if List.isPrefixOf "law".data (rest.drop q) then
            some (c :: (rest.take q ++ "law".data))
          else none
        else none)
    else none

/-- Matcher at one position for `(19|20)\d{2}` (pattern of
`_extract_year_from_text`); returns the whole match. -/
def yearAt : List Char → Option String
  | '1' :: '9' :: a :: b :: _ =>
    if a.isDigit && b.isDigit then some ⟨['1', '9', a, b]⟩ else none
  | '2' :: '0' :: a :: b :: _ =>
    if a.isDigit && b.isDigit then some ⟨['2', '0', a, b]⟩ else none
  | _ => none

/-- Four consecutive ASCII digits (`\d{4}`); returns them and the rest. -/
def fourDigitsAt (l : List Char) : Option (String × List Char) :=
  match l with
  | a :: b :: c :: d :: rest =>
    if a.isDigit && b.isDigit && c.isDigit && d.isDigit then
      some (⟨[a, b, c, d]⟩, rest)
    else none
  | _ => none

/-- Pattern `\s*`: consume the (greedy) maximal whitespace run.  Exact here because
in every use the next pattern element cannot match whitespace. -/
def skipWs (l : List Char) : List Char := l.dropWhile Char.isWhitespace

/-- Pattern `[-–]`: an ASCII hyphen or an en dash. -/
def dashAt : List Char → Option (List Char)
  | c :: rest => if c = '-' || c = '–' then some rest else none
  | [] => none

/-- Matcher for `(\d{4})\s*[-–]\s*(\d{4})` at one position. -/
def termRangeAt (l : List Char) : Option (String × String) := do
  let (g1, r1) ← fourDigitsAt l
  let r2 ← dashAt (skipWs r1)
  let (g2, _) ← fourDigitsAt (skipWs r2)
  pure (g1, g2)

/-- Matcher for `(\d{4})\s*[-–]\s*present` at one position. -/
def termPresentAt (l : List Char) : Option String := do
  let (g1, r1) ← fourDigitsAt l
  let r2 ← dashAt (skipWs r1)
  if List.isPrefixOf "present".data (skipWs r2) then pure g1 else none

/-- Matcher for `since\s*(\d{4})` at one position. -/
def termSinceAt (l : List Char) : Option String := do
  if List.isPrefixOf "since".data l then
    let (g1, _) ← fourDigitsAt (skipWs (l.drop 5))
    pure g1
  else none

/-- Verb alternatives of `(vote[d]?|support[ed]?)` at one position, in
regex backtracking order.  `[d]?` / `[ed]?` are optional single-character
classes, tried greedily (with the extra character first). -/
def verbRests (l : List Char) : List (List Char) :=
  (if List.isPrefixOf "vote".data l then
    let r := l.drop 4
    match r with
    | c :: r2 => if c = 'd' then [r2, r] else [r]
    | [] => [r]
  else []) ++
  (if List.isPrefixOf "support".data l then
    let r := l.drop 7
    match r with
    | c :: r2 => if c = 'e' || c = 'd' then [r2, r] else [r]
    | [] => [r]
  else [])

/-- After the verb: `\s+([^.]+)`.  `\s+` greedily takes the whole
whitespace run, backing off (one character at a time, the dropped
whitespace then being consumed by `[^.]+`, since whitespace is not a dot)
until the dot-free capture is non-empty. -/
def wsCaptureAt (r : List Char) : Option (List Char) :=
  let w := (r.takeWhile Char.isWhitespace).length
  if w = 0 then none
  else
    (List.range w).reverse.findSome? (fun j' =>
      let g := (r.drop (j' + 1)).takeWhile (fun c => c != '.')
      if g.isEmpty then none else some g)

/-- Matcher at one position for `(vote[d]?|support[ed]?)\s+([^.]+)`
(pattern of `_analyze_real_voting_patterns`); returns group 2. -/
def votePatternAt (l : List Char) : Option (List Char) :=
  (verbRests l).findSome? wsCaptureAt

/-! ### Dates

`datetime.now()` is modelled by an explicit `now : Nat × Nat`
(year, month) parameter.  `datetime.fromisoformat` is modelled by
`isoParseYM`, which validates a `YYYY-MM-DD` prefix (the only part
`strftime('%Y-%m')` depends on) with in-range month and day, followed by
nothing or a time part introduced by `'T'` or `' '`; any other string is a
parse failure (Python then raises, and `_parse_news_date` falls back to
the current month). -/

/-- Numeric value of a digit character. -/
def digitVal (c : Char) : Nat := c.toNat - '0'.toNat

/-- Model of `datetime.fromisoformat(s)` restricted to the year and month
of the result (all that `strftime('%Y-%m')` reads). -/
def isoParseYM (s : String) : Option (Nat × Nat) :=
  match s.data with
  | y1 :: y2 :: y3 :: y4 :: '-' :: m1 :: m2 :: '-' :: d1 :: d2 :: rest =>
    if y1.isDigit && y2.isDigit && y3.isDigit && y4.isDigit &&
       m1.isDigit && m2.isDigit && d1.isDigit && d2.isDigit then
      let y := ((digitVal y1 * 10 + digitVal y2) * 10 + digitVal y3) * 10 + digitVal y4
      let m := digitVal m1 * 10 + digitVal m2
      let d := digitVal d1 * 10 + digitVal d2
      if 1 ≤ y && 1 ≤ m && m ≤ 12 && 1 ≤ d && d ≤ 31 &&
         (rest.isEmpty || rest.head? = some 'T' || rest.head? = some ' ') then
        some (y, m)
      else none
    else none
  | _ => none

/-- Zero-padded two-digit rendering (`%m`; also the low digits of `%Y`). -/
def pad2 (n : Nat) : List Char := [Nat.digitChar (n / 10 % 10), Nat.digitChar (n % 10)]

/-- Zero-padded four-digit rendering (`%Y` for years up to 9999, the only
years `isoParseYM` can produce). -/
def pad4 (n : Nat) : List Char :=
  [Nat.digitChar (n / 1000 % 10), Nat.digitChar (n / 100 % 10),
   Nat.digitChar (n / 10 % 10), Nat.digitChar (n % 10)]

/-- Model of `strftime('%Y-%m')` on a (year, month) pair. -/
def formatYM (ym : Nat × Nat) : String := ⟨pad4 ym.1 ++ '-' :: pad2 ym.2⟩

/-- Source `_parse_news_date`: empty string or unparseable string (after the `Z`
→ `+00:00` normalization) defaults to the current month. -/
def parse_news_date (now : Nat × Nat) (date_str : String) : String :=
  if date_str = "" then formatYM now
  else
    match isoParseYM (pyReplace "Z" "+00:00" date_str) with
    | some ym => formatYM ym
    | none => formatYM now

/-! ### Basic-info extraction -/

/-- Source `_identify_political_party`. -/
def identify_political_party (text : String) : String :=
  match party_patterns.findSome? (fun pp =>
      reFind (partyCapAt pp.1.data pp.2.data) text.data) with
  | some cap => pyTitle ⟨cap⟩
  | none =>
    match political_spectrum.findSome? (fun sk =>
        if sk.2.any (fun keyword => pyContains keyword text) then some sk.1 else none) with
    | some spectrum => pyTitle spectrum ++ " Political Party"
    | none => "Unknown"

/-- The `country_titles` table of `_identify_political_position`
(insertion order). -/
def country_titles : List (String × List String) :=
  [("india", ["prime minister", "chief minister", "mp"]),
   ("uk", ["prime minister", "mp", "lord"]),
   ("germany", ["chancellor", "minister"]),
   ("france", ["president", "prime minister"]),
   ("canada", ["prime minister", "mp"])]

/-- Source `_identify_political_position` (its `name` argument is unused in the
source as well). -/
def identify_political_position (text : String) (_name : String) : String :=
  let text_lower := pyLower text
  match global_positions.findSome? (fun pk =>
      pk.2.findSome? (fun keyword =>
        if pyContains keyword text_lower then
          if pk.1 = "president" then
            if pyContains "former" text_lower || pyContains "was" text_lower then
              some ("Former " ++ pyTitle keyword)
            else some (pyTitle keyword)
          else some (pyTitle keyword)
        else none)) with
  | some r => r
  | none =>
    match country_titles.findSome? (fun ct =>
        if pyContains ct.1 text_lower then
          ct.2.findSome? (fun title =>
            if pyContains title text_lower then some (pyTitle title) else none)
        else none) with
    | some r => r
    | none => "Political Figure"

/-- Source `_extract_term_period`: the three year-range patterns tried in order,
each by leftmost search. -/
def extract_term_period (text : String) : String :=
  match reFind termRangeAt text.data with
  | some g => g.1 ++ "-" ++ g.2
  | none =>
    match reFind termPresentAt text.data with
    | some g1 => g1 ++ "-present"
    | none =>
      match reFind termSinceAt text.data with
      | some g1 => g1 ++ "-present"
      | none => "N/A"

/-- Source `_generate_contextual_summary`. -/
def generate_contextual_summary (name party position extract : String) : String :=
  let focus_areas :=
    (if pyContains "economic" extract || pyContains "economy" extract then
      ["economic policy"] else []) ++
    (if pyContains "health" extract || pyContains "healthcare" extract then
      ["healthcare"] else []) ++
    (if pyContains "environment" extract || pyContains "climate" extract then
      ["environmental issues"] else []) ++
    (if pyContains "education" extract then ["education"] else [])
  let focus_text :=
    if focus_areas.isEmpty then "" else ", focusing on " ++ String.intercalate ", " focus_areas
  name ++ " serves as " ++ position ++ " representing " ++ party ++ focus_text ++ "."

/-- Source `_extract_basic_info`. -/
def extract_basic_info (name : String) (wiki_data : WikiData) : BasicInfo :=
  let extract := pyLower (wiki_data.extract.getD "")
  let _title := wiki_data.title.getD name
  let party := identify_political_party extract
  let position := identify_political_position extract name
  let term_period := extract_term_period extract
  { party := party, position := position, term_period := term_period,
    summary := generate_contextual_summary name party position extract }

/-! ### Activities -/

/-- Source `_classify_activity_category`: first-matching keyword group over
`"{title} {description}"` lower-cased. -/
def classify_activity_category (title description : String) : String :=
  let text := pyLower (title ++ " " ++ description)
  if ["bill", "law", "legislation", "vote", "parliament", "congress"].any
      (fun word => pyContains word text) then "Legislation"
  else if ["campaign", "election", "rally", "candidate"].any
      (fun word => pyContains word text) then "Campaign"
  else if ["meeting", "summit", "visit", "diplomatic", "foreign"].any
      (fun word => pyContains word text) then "Diplomacy"
  else if ["statement", "speech", "address", "comment"].any
      (fun word => pyContains word text) then "Public Statement"
  else if ["policy", "reform", "initiative"].any
      (fun word => pyContains word text) then "Policy Initiative"
  else "General Activity"

/-- Source `_assess_activity_impact`: compare counts of positive and negative
keywords occurring in `"{title} {description}"` lower-cased. -/
def assess_activity_impact (title description : String) : String :=
  let text := pyLower (title ++ " " ++ description)
  let positive_count := political_keywords_positive.countP (fun word => pyContains word text)
  let negative_count := political_keywords_negative.countP (fun word => pyContains word text)
  if negative_count < positive_count then "positive"
  else if positive_count < negative_count then "controversial"
  else "neutral"

/-- Source `_extract_wiki_activities`: fallback when no news activity was found.
Scans the last 3 `'. '`-separated sentences of the raw extract for recency
markers; each hit becomes a fixed-shape activity with date `"2024"`. -/
def extract_wiki_activities (_name : String) (wiki_data : WikiData) : List Activity :=
  let extract := wiki_data.extract.getD ""
  let sentences := pySplitOn ". " extract
  (lastN 3 sentences).filterMap (fun sentence =>
    if ["recent", "2024", "2023", "current"].any
        (fun word => pyContains word (pyLower sentence)) then
      some { activity := pyStrip sentence, date := "2024",
             category := "General Activity", impact := "neutral",
             details := "Extracted from biographical information" }
    else none)

/-- Source `_analyze_real_activities`: one activity per article among the first 6
whose title is non-empty and contains the name (case-insensitively); if
none, fall back to the Wikipedia extraction; truncate to 6. -/
def analyze_real_activities (now : Nat × Nat) (name : String)
    (wiki_data : WikiData) (news_data : List NewsItem) : List Activity :=
  let activities := (news_data.take 6).filterMap (fun article =>
    let title := article.title.getD ""
    let description := article.description.getD ""
    let published_at := article.publishedAt.getD ""
    if title != "" && pyContains (pyLower name) (pyLower title) then
      some { activity := title,
             date := parse_news_date now published_at,
             category := classify_activity_category title description,
             impact := assess_activity_impact title description,
             details := if description != "" then description
                        else "No additional details available." }
    else none)
  let activities :=
    if activities.isEmpty then extract_wiki_activities name wiki_data else activities
  activities.take 6

/-! ### Promises -/

/-- Source `_determine_promise_status`: the score-to-status bucket map. -/
def determine_promise_status (percentage : Nat) : String :=
  if 80 ≤ percentage then "fulfilled"
  else if 60 ≤ percentage then "partially_fulfilled"
  else if 30 ≤ percentage then "in_progress"
  else "not_fulfilled"

/-- Source `_calculate_real_fulfillment`: +40 for a completion keyword anywhere in
the biography; then, per news article sharing one of the promise's first 3
words, +20 for a progress keyword, `elif` +50 for a completion keyword;
capped at 100. -/
def calculate_real_fulfillment (promise : PromiseBase) (wiki_data : WikiData)
    (news_data : List NewsItem) : Nat :=
  let promise_text := pyLower promise.promise
  let wiki_text := pyLower (wiki_data.extract.getD "")
  let fulfillment_score :=
    if ["achieved", "completed", "implemented", "delivered"].any
        (fun word => pyContains word wiki_text) then 40 else 0
  let fulfillment_score := news_data.foldl (fun acc article =>
    let article_text :=
      pyLower ((article.title.getD "") ++ " " ++ (article.description.getD ""))
    if ((pySplitWs promise_text).take 3).any (fun word => pyContains word article_text) then
      if ["progress", "working", "developing"].any
          (fun word => pyContains word article_text) then acc + 20
      else if ["completed", "achieved", "delivered"].any
          (fun word => pyContains word article_text) then acc + 50
      else acc
    else acc) fulfillment_score
  min fulfillment_score 100

/-- Source `_extract_real_promises`: news-derived candidates (commitment keyword
in title+description) followed by at most 3 biography-sentence candidates,
each then scored and given a status, the whole list truncated to 6. -/
def extract_real_promises (_name : String) (wiki_data : WikiData)
    (news_data : List NewsItem) : List Promise :=
  let extract := pyLower (wiki_data.extract.getD "")
  let promise_sentences := (pySplitOn "." extract).filterMap (fun sentence =>
    if ["promise", "pledge", "commit", "plan to", "will", "intend"].any
        (fun word => pyContains word (pyLower sentence)) then
      some (pyStrip sentence)
    else none)
  let news_promises : List PromiseBase := news_data.filterMap (fun article =>
    let title := article.title.getD ""
    let description := article.description.getD ""
    if ["promise", "pledge", "commit", "plan"].any
        (fun word => pyContains word (pyLower (title ++ " " ++ description))) then
      some { promise := title, made_during := "Recent statements",
             evidence := description, timeline := "Ongoing",
             impact := "To be determined based on implementation" }
    else none)
  let wiki_promises : List PromiseBase := (promise_sentences.take 3).map (fun sentence =>
    { promise := sentence, made_during := "Political career",
      evidence := "Mentioned in biographical information", timeline := "Ongoing",
      impact := "Policy-related commitment" })
  let promises := news_promises ++ wiki_promises
  (promises.map (fun b =>
    let pct := calculate_real_fulfillment b wiki_data news_data
    { promise := b.promise, made_during := b.made_during, evidence := b.evidence,
      timeline := b.timeline, impact := b.impact,
      fulfillment_percentage := pct,
      status := determine_promise_status pct })).take 6

/-! ### Legislative record -/

/-- Source `_extract_year_from_text`: leftmost `(19|20)\d{2}` match, default
`"2024"`. -/
def extract_year_from_text (text : String) : String :=
  (reFind yearAt text.data).getD "2024"

/-- Source `_determine_bill_status`. -/
def determine_bill_status (text : String) : String :=
  let text := pyLower text
  if ["passed", "enacted", "signed"].any (fun word => pyContains word text) then "Passed"
  else if ["proposed", "introduced"].any (fun word => pyContains word text) then "Introduced"
  else if ["failed", "rejected"].any (fun word => pyContains word text) then "Failed"
  else "Unknown"

/-- Source `_determine_legislative_role`. -/
def determine_legislative_role (text name : String) : String :=
  let text := pyLower text
  let name_lower := pyLower name
  if [name_lower ++ " introduced", name_lower ++ " proposed"].any
      (fun word => pyContains word text) then "Sponsor"
  else if [name_lower ++ " supported", name_lower ++ " backed"].any
      (fun word => pyContains word text) then "Supporter"
  else if [name_lower ++ " voted", name_lower ++ " opposed"].any
      (fun word => pyContains word text) then "Voter"
  else "Involved"

/-- Source `_determine_policy_area`: first-match-wins keyword groups, default
`"General Policy"`. -/
def determine_policy_area (text : String) : String :=
  let text := pyLower text
  if ["health", "medical", "care", "hospital", "medicine"].any
      (fun word => pyContains word text) then "Healthcare"
  else if ["economy", "job", "business", "trade", "finance", "economic"].any
      (fun word => pyContains word text) then "Economy"
  else if ["environment", "climate", "energy", "green", "carbon"].any
      (fun word => pyContains word text) then "Environment"
  else if ["defense", "military", "security", "army", "war"].any
      (fun word => pyContains word text) then "Defense"
  else if ["education", "school", "university", "student"].any
      (fun word => pyContains word text) then "Education"
  else if ["infrastructure", "transport", "road", "bridge"].any
      (fun word => pyContains word text) then "Infrastructure"
  else if ["social", "welfare", "pension", "benefit"].any
      (fun word => pyContains word text) then "Social Policy"
  else "General Policy"

/-- Source `_extract_real_legislative_record`: bills from biography sentences with
an extractable bill name, then one bill per Legislation activity, capped
at 5. -/
def extract_real_legislative_record (name : String) (wiki_data : WikiData)
    (activities : List Activity) : List Bill :=
  let extract := pyLower (wiki_data.extract.getD "")
  let sentences := pySplitOn "." extract
  let wiki_bills := sentences.filterMap (fun sentence =>
    if ["bill", "act", "law", "legislation", "reform"].any
        (fun keyword => pyContains keyword (pyLower sentence)) then
      match reFind billCapAt sentence.data with
      | some cap =>
        some { title := pyStrip ⟨cap⟩, bill_number := "N/A",
               year := extract_year_from_text sentence,
               description := pyStrip sentence,
               status := determine_bill_status sentence,
               role := determine_legislative_role sentence name,
               impact_area := determine_policy_area sentence }
      | none => none
    else none)
  let activity_bills := activities.filterMap (fun activity =>
    if activity.category = "Legislation" then
      some { title := activity.activity, bill_number := "N/A",
             year := if activity.date != "" then ⟨activity.date.data.take 4⟩ else "2024",
             description := activity.details, status := "Recent Activity",
             role := "Involved",
             impact_area := determine_policy_area activity.activity }
    else none)
  (wiki_bills ++ activity_bills).take 5

/-! ### Voting patterns -/

/-- Source `_analyze_real_voting_patterns`. -/
def analyze_real_voting_patterns (_name : String) (wiki_data : WikiData) : VotingRecord :=
  let extract := pyLower (wiki_data.extract.getD "")
  let alignment :=
    (political_spectrum.findSome? (fun sk =>
      if sk.2.any (fun keyword => pyContains keyword extract) then some sk.1
      else none)).getD "moderate"
  let vote_sentences := (pySplitOn "." extract).filter (fun s =>
    pyContains "vote" (pyLower s) || pyContains "support" (pyLower s))
  let key_votes := (vote_sentences.take 3).filterMap (fun sentence =>
    match reFind votePatternAt sentence.data with
    | some g =>
      some { issue := pyStrip ⟨g⟩,
             position := if pyContains "support" (pyLower sentence) then "For" else "Voted",
             year := extract_year_from_text sentence }
    | none => none)
  { key_votes := key_votes, alignment := alignment }

/-! ### Controversies -/

/-- The `controversy_keywords` list of `_identify_real_controversies`. -/
def controversy_keywords : List String :=
  ["controversy", "scandal", "criticism", "dispute", "allegation", "investigation"]

/-- Source `_identify_real_controversies`: news-derived records first, then up to
2 biography sentences per keyword, capped at 3. -/
def identify_real_controversies (now : Nat × Nat) (_name : String)
    (wiki_data : WikiData) (news_data : List NewsItem) : List Controversy :=
  let news_controversies := news_data.filterMap (fun article =>
    let title := pyLower (article.title.getD "")
    let description := pyLower (article.description.getD "")
    if controversy_keywords.any (fun keyword =>
        pyContains keyword (title ++ " " ++ description)) then
      some { issue := article.title.getD "Political controversy",
             year := ⟨(parse_news_date now (article.publishedAt.getD "")).data.take 4⟩,
             resolution := "Ongoing news coverage" }
    else none)
  let extract := pyLower (wiki_data.extract.getD "")
  let wiki_controversies := controversy_keywords.foldl (fun acc keyword =>
    if pyContains keyword extract then
      let sentences := (pySplitOn "." extract).filter (fun s =>
        pyContains keyword (pyLower s))
      acc ++ (sentences.take 2).map (fun sentence =>
        { issue := pyStrip sentence, year := extract_year_from_text sentence,
          resolution := "Historical record" })
    else acc) []
  (news_controversies ++ wiki_controversies).take 3

/-! ### Promise metrics -/

/-- Round-half-even of the rational `num / den` (`den > 0`) to the nearest
integer: the model of Python's banker's rounding in `round(x, 1)`, applied
here with `num` already scaled to tenths. -/
def roundHalfEven (num den : Nat) : Nat :=
  let q := num / den
  let r := num % den
  if 2 * r < den then q
  else if den < 2 * r then q + 1
  else if q % 2 = 0 then q else q + 1

/-- Render a number of tenths the way Python prints the rounded float
(`f"{rate}%"` without the percent sign): integer part, dot, one digit. -/
def formatTenths (t : Nat) : String :=
  toString (t / 10) ++ "." ++ toString (t % 10)

/-- Source `_identify_strong_areas`: policy areas of fulfilled / partially
fulfilled promises, deduplicated in first-seen order, excluding
`"General Policy"`, capped at 3. -/
def identify_strong_areas (promises : List Promise) : List String :=
  (promises.foldl (fun acc p =>
    if p.status = "fulfilled" || p.status = "partially_fulfilled" then
      let area := determine_policy_area p.promise
      if !(acc.contains area) && area != "General Policy" then acc ++ [area] else acc
    else acc) []).take 3

/-- Source `_identify_weak_areas`: same for not-fulfilled promises. -/
def identify_weak_areas (promises : List Promise) : List String :=
  (promises.foldl (fun acc p =>
    if p.status = "not_fulfilled" then
      let area := determine_policy_area p.promise
      if !(acc.contains area) && area != "General Policy" then acc ++ [area] else acc
    else acc) []).take 3

/-- Source `_calculate_promise_metrics`: `{}` (here `none`) on an empty list,
otherwise the aggregate record.  `round(((fulfilled + 0.5*partially) /
total) * 100, 1)` is computed exactly in tenths:
`(2*fulfilled + partially) * 500 / total`, rounded half-to-even. -/
def calculate_promise_metrics (promises : List Promise) : Option PromiseMetrics :=
  if promises.isEmpty then none
  else
    let total := promises.length
    let fulfilled := promises.countP (fun p => p.status == "fulfilled")
    let partially := promises.countP (fun p => p.status == "partially_fulfilled")
    let in_progress := promises.countP (fun p => p.status == "in_progress")
    let not_fulfilled := promises.countP (fun p => p.status == "not_fulfilled")
    let tenths := roundHalfEven ((2 * fulfilled + partially) * 500) total
    some { total_promises_tracked := total, fulfilled_count := fulfilled,
           partially_fulfilled_count := partially, in_progress_count := in_progress,
           not_fulfilled_count := not_fulfilled,
           calculated_fulfillment_rate := formatTenths tenths ++ "%",
           strongest_areas := identify_strong_areas promises,
           weakest_areas := identify_weak_areas promises,
           analysis_summary :=
             "Based on available data, promise fulfillment rate of " ++
             formatTenths tenths ++ "% indicates " ++
             (if 600 < tenths then "strong"
              else if 300 < tenths then "moderate" else "developing") ++
             " progress on stated commitments." }

/-! ### The engine entry point -/

/-- Source `ReasoningAgent.analyze`: the heuristic strategy's whole pipeline. -/
def analyze (now : Nat × Nat) (name : String) (raw_data : RawData) : Report :=
  let wiki_data := raw_data.wikipedia.getD {}
  let news_data := raw_data.news.getD []
  let basic_info := extract_basic_info name wiki_data
  let activities := analyze_real_activities now name wiki_data news_data
  let promises := extract_real_promises name wiki_data news_data
  let bills := extract_real_legislative_record name wiki_data activities
  let voting_record := analyze_real_voting_patterns name wiki_data
  let controversies := identify_real_controversies now name wiki_data news_data
  let promise_analysis := calculate_promise_metrics promises
  { politician := name,
    party := basic_info.party,
    position := basic_info.position,
    term_period := basic_info.term_period,
    summary := basic_info.summary,
    activities := activities,
    promises := promises,
    bills := bills,
    promise_analysis := promise_analysis,
    voting_record_summary := voting_record,
    controversies := controversies,
    data_sources := ["Wikipedia API", "NewsAPI", "Internal Global Political Analysis Engine"] }

/-! ### Definitions used to state the claims -/

/-- The "YYYY-MM" shape claimed for activity dates: four digits, a dash,
two digits. -/
def isYYYYMM (s : String) : Bool :=
  match s.data with
  | [a, b, c, d, e, f, g] =>
    a.isDigit && b.isDigit && c.isDigit && d.isDigit && e = '-' && f.isDigit && g.isDigit
  | _ => false

/-- Claim C2 exactly as stated: per news item sharing one of the promise's
first 3 words, the +20 progress bonus and the +50 completion bonus are
independent and may both fire on the same item. -/
def claimed_fulfillment_C2 (promise : PromiseBase) (wiki_data : WikiData)
    (news_data : List NewsItem) : Nat :=
  let promise_text := pyLower promise.promise
  let wiki_text := pyLower (wiki_data.extract.getD "")
  let bioBonus :=
    if ["achieved", "completed", "implemented", "delivered"].any
        (fun word => pyContains word wiki_text) then 40 else 0
  let itemBonus := fun (article : NewsItem) =>
    let article_text :=
      pyLower ((article.title.getD "") ++ " " ++ (article.description.getD ""))
    if ((pySplitWs promise_text).take 3).any (fun word => pyContains word article_text) then
      (if ["progress", "working", "developing"].any
          (fun word => pyContains word article_text) then 20 else 0) +
      (if ["completed", "achieved", "delivered"].any
          (fun word => pyContains word article_text) then 50 else 0)
    else 0
  min (bioBonus + (news_data.map itemBonus).sum) 100

/-- The per-item news bonus of the amended claim C2: the progress check
takes precedence, so at most one of the two bonuses fires per item. -/
def amended_item_bonus_C2 (promise_text : String) (article : NewsItem) : Nat :=
  let article_text :=
    pyLower ((article.title.getD "") ++ " " ++ (article.description.getD ""))
  if ((pySplitWs promise_text).take 3).any (fun word => pyContains word article_text) then
    if ["progress", "working", "developing"].any
        (fun word => pyContains word article_text) then 20
    else if ["completed", "achieved", "delivered"].any
        (fun word => pyContains word article_text) then 50
    else 0
  else 0

/-- The amended claim C2 as a whole: the score is the biography bonus plus
the sum of the exclusive per-item bonuses, capped at 100. -/
def amended_fulfillment_C2 (promise : PromiseBase) (wiki_data : WikiData)
    (news_data : List NewsItem) : Nat :=
  let promise_text := pyLower promise.promise
  let wiki_text := pyLower (wiki_data.extract.getD "")
  let bioBonus :=
    if ["achieved", "completed", "implemented", "delivered"].any
        (fun word => pyContains word wiki_text) then 40 else 0
  min (bioBonus + (news_data.map (amended_item_bonus_C2 promise_text)).sum) 100

/-- Modelled from the spec: the unconditional final metrics pass of §4.8
("PromiseMetrics … always recomputed from the Promise list") applied to an
already-assembled report.  The heuristic path of `analyze` performs this
pass inline (`promise_analysis = self._calculate_promise_metrics(promises)`);
the generative strategy's call site is not part of the sources under
verification. -/
def recompute_promise_metrics (r : Report) : Report :=
  { r with promise_analysis := calculate_promise_metrics r.promises }

/-! ### Concrete records used by counterexamples -/

/-- A news item whose text contains the commitment keyword "will" but none
of "promise"/"pledge"/"commit"/"plan". -/
def newsItemWill : NewsItem :=
  { title := some "she will expand coverage", description := some "" }

/-- A news item containing both a progress keyword and a completion
keyword, plus the word "build". -/
def newsItemProgressCompleted : NewsItem :=
  { title := some "build progress completed", description := some "" }

/-- A promise whose first word also appears in
`newsItemProgressCompleted`. -/
def promiseBuildRoads : PromiseBase :=
  { promise := "build roads now", made_during := "", evidence := "",
    timeline := "", impact := "" }

/-- A biography whose last sentence carries a recency marker, forcing the
Wikipedia fallback of `_analyze_real_activities`. -/
def wikiRecentWork : WikiData := { extract := some "recent work" }

/-! ### Helper lemmas -/

/-- Digit characters of digits below 10 really are digits. -/
theorem digitChar_isDigit : ∀ n : Nat, n < 10 → (Nat.digitChar n).isDigit = true := by
  decide

/-- Whatever the year and month, the formatter yields the "YYYY-MM" shape. -/
theorem isYYYYMM_formatYM (ym : Nat × Nat) : isYYYYMM (formatYM ym) = true := by
  obtain ⟨y, m⟩ := ym
  show isYYYYMM ⟨pad4 y ++ '-' :: pad2 m⟩ = true
  simp only [isYYYYMM, pad4, pad2, List.cons_append, List.nil_append]
  simp [digitChar_isDigit _ (Nat.mod_lt _ (by norm_num))]

/-- Every date `_parse_news_date` can return has the "YYYY-MM" shape. -/
theorem parse_news_date_shape (now : Nat × Nat) (s : String) :
    isYYYYMM (parse_news_date now s) = true := by
  unfold parse_news_date
  split
  · exact isYYYYMM_formatYM now
  · split
    · exact isYYYYMM_formatYM _
    · exact isYYYYMM_formatYM now

/-- A guarded `filterMap` is a `filter` followed by a `map`. -/
theorem filterMap_guard (p : α → Bool) (f : α → β) :
    ∀ l : List α,
      (l.filterMap fun a => if p a then some (f a) else none) = (l.filter p).map f := by
  intro l
  induction l with
  | nil => rfl
  | cons a t ih => cases h : p a <;> simp [List.filterMap_cons, List.filter_cons, h, ih]

/-- Folding an accumulator-plus-bonus step equals adding the sum of the
bonuses to the initial value. -/
theorem foldl_add_sum (g : α → Nat) :
    ∀ (l : List α) (init : Nat),
      l.foldl (fun acc a => acc + g a) init = init + (l.map g).sum := by
  intro l
  induction l with
  | nil => simp
  | cons a t ih => intro init; simp [List.foldl_cons, ih (init + g a)]; omega

/-- Every promise the extractor returns carries the status derived from
its own fulfillment percentage. -/
theorem extract_promises_status (name : String) (wiki_data : WikiData)
    (news_data : List NewsItem) :
    ∀ p ∈ extract_real_promises name wiki_data news_data,
      p.status = determine_promise_status p.fulfillment_percentage := by
  intro p hp
  unfold extract_real_promises at hp
  have hp' := List.mem_of_mem_take hp
  obtain ⟨b, _, hb⟩ := List.mem_map.1 hp'
  subst hb
  rfl

/-- The status function only ever returns one of the four bucket names. -/
theorem determine_promise_status_cases (n : Nat) :
    determine_promise_status n = "fulfilled" ∨
    determine_promise_status n = "partially_fulfilled" ∨
    determine_promise_status n = "in_progress" ∨
    determine_promise_status n = "not_fulfilled" := by
  unfold determine_promise_status
  split_ifs <;> simp

/-- If every element's status is one of the four bucket names, the four
per-status counts partition the list. -/
theorem countP_status_partition :
    ∀ l : List Promise,
      (∀ p ∈ l, p.status = "fulfilled" ∨ p.status = "partially_fulfilled" ∨
        p.status = "in_progress" ∨ p.status = "not_fulfilled") →
      l.countP (fun p => p.status == "fulfilled") +
      l.countP (fun p => p.status == "partially_fulfilled") +
      l.countP (fun p => p.status == "in_progress") +
      l.countP (fun p => p.status == "not_fulfilled") = l.length := by
  intro l
  induction l with
  | nil => intro _; rfl
  | cons a t ih =>
    intro h
    have ha := h a (List.mem_cons_self a t)
    have ht := ih (fun p hp => h p (List.mem_cons_of_mem a hp))
    rcases ha with hs | hs | hs | hs <;>
      simp +decide [List.countP_cons, hs] <;> omega

/-- Helper for claim C2: unrolling the scoring fold into the sum of the
exclusive per-item bonuses. -/
theorem fulfillment_foldl (promise_text : String) :
    ∀ (news_data : List NewsItem) (init : Nat),
      news_data.foldl (fun acc article =>
        let article_text :=
          pyLower ((article.title.getD "") ++ " " ++ (article.description.getD ""))
        if ((pySplitWs promise_text).take 3).any (fun word => pyContains word article_text) then
          if ["progress", "working", "developing"].any
              (fun word => pyContains word article_text) then acc + 20
          else if ["completed", "achieved", "delivered"].any
              (fun word => pyContains word article_text) then acc + 50
          else acc
        else acc) init
      = init + (news_data.map (amended_item_bonus_C2 promise_text)).sum := by
  intro news_data
  induction news_data with
  | nil => simp
  | cons a t ih =>
    intro init
    rw [List.foldl_cons, ih, List.map_cons, List.sum_cons]
    unfold amended_item_bonus_C2
    dsimp only
    split_ifs <;> omega

/-- A promise record carrying just a status and a matching score, used for
the concrete metrics examples. -/
def mkStatusPromise (s : String) (n : Nat) : Promise :=
  { promise := "", made_during := "", evidence := "", timeline := "",
    impact := "", fulfillment_percentage := n, status := s }

/-- Promise list with counts fulfilled=2, partially_fulfilled=2,
in_progress=1, not_fulfilled=1 (total=6). -/
def sixPromisesC3 : List Promise :=
  [mkStatusPromise "fulfilled" 85, mkStatusPromise "fulfilled" 85,
   mkStatusPromise "partially_fulfilled" 65, mkStatusPromise "partially_fulfilled" 65,
   mkStatusPromise "in_progress" 45, mkStatusPromise "not_fulfilled" 10]

/-! ### The claims -/

/-- C1: every Promise produced by the heuristic strategy carries exactly
the status bucket determined by its fulfillment percentage
(score ≥ 80 → fulfilled, 60–79 → partially_fulfilled, 30–59 → in_progress,
below 30 → not_fulfilled); status and score never disagree on any promise
of the returned list. -/
theorem C1_status_score_consistent :
    (∀ (name : String) (wiki_data : WikiData) (news_data : List NewsItem),
      (extract_real_promises name wiki_data news_data).all
        (fun p => p.status == determine_promise_status p.fulfillment_percentage) = true) ∧
    determine_promise_status 100 = "fulfilled" ∧
    determine_promise_status 85 = "fulfilled" ∧
    determine_promise_status 80 = "fulfilled" ∧
    determine_promise_status 79 = "partially_fulfilled" ∧
    determine_promise_status 60 = "partially_fulfilled" ∧
    determine_promise_status 59 = "in_progress" ∧
    determine_promise_status 30 = "in_progress" ∧
    determine_promise_status 29 = "not_fulfilled" ∧
    determine_promise_status 0 = "not_fulfilled" := by
  refine ⟨?_, by decide, by decide, by decide, by decide, by decide, by decide,
    by decide, by decide, by decide⟩
  intro name wiki_data news_data
  rw [List.all_eq_true]
  intro p hp
  simp [extract_promises_status name wiki_data news_data p hp]

/-- C2 (counterexample): on a news item that contains both a progress
keyword and a completion keyword, the code adds only the +20 progress
bonus (the completion check is an `elif`), while the claim's independent
checks would add 20 + 50 = 70. -/
theorem C2_counterexample :
    calculate_real_fulfillment promiseBuildRoads {} [newsItemProgressCompleted] = 20 ∧
    claimed_fulfillment_C2 promiseBuildRoads {} [newsItemProgressCompleted] = 70 := by
  constructor <;> rfl

/-- C2 (amended): the fulfillment score is additive and capped at 100,
+40 for a completion keyword anywhere in the biography, and per matching
news item +20 for a progress keyword, otherwise +50 for a completion
keyword — the two per-item checks are mutually exclusive, with the
progress check taking precedence. -/
theorem C2_amended_fulfillment_additive :
    ∀ (promise : PromiseBase) (wiki_data : WikiData) (news_data : List NewsItem),
      calculate_real_fulfillment promise wiki_data news_data =
      amended_fulfillment_C2 promise wiki_data news_data := by
  intro promise wiki_data news_data
  exact congrArg (fun x => min x 100)
    (fulfillment_foldl (pyLower promise.promise) news_data
      (if (["achieved", "completed", "implemented", "delivered"].any
          (fun word => pyContains word (pyLower (wiki_data.extract.getD "")))) then 40 else 0))

/-- C3: the metrics calculator renders
`round(100 * (fulfilled + 0.5*partially) / total, 1)` as the fulfillment
rate; on counts fulfilled=2, partially=2, in_progress=1, not_fulfilled=1
it yields "50.0%", and on an empty promise list the metrics object is
omitted (`none`) rather than carrying a 0% rate. -/
theorem C3_fulfillment_rate_formula :
    ((calculate_promise_metrics sixPromisesC3).map
        (fun m => m.calculated_fulfillment_rate) = some "50.0%") ∧
    calculate_promise_metrics [] = none ∧
    ∀ promises : List Promise,
      (calculate_promise_metrics promises).map (fun m => m.calculated_fulfillment_rate) =
      (if promises.isEmpty then none
       else some (formatTenths (roundHalfEven
         ((2 * promises.countP (fun p => p.status == "fulfilled") +
           promises.countP (fun p => p.status == "partially_fulfilled")) * 500)
         promises.length) ++ "%")) := by
  refine ⟨by decide, rfl, ?_⟩
  intro promises
  cases h : promises.isEmpty <;> simp [calculate_promise_metrics, h]

/-- C5: on input `{wikipedia: {}, news: []}` the heuristic `analyze`
returns a Report (no failure is possible: the function is total) with
party "Unknown", position "Political Figure", and empty activities,
promises and bills, for every politician name and every current date. -/
theorem C5_empty_input_degrades :
    ∀ (now : Nat × Nat) (name : String),
      (analyze now name { wikipedia := some {}, news := some [] }).party = "Unknown" ∧
      (analyze now name { wikipedia := some {}, news := some [] }).position = "Political Figure" ∧
      (analyze now name { wikipedia := some {}, news := some [] }).activities = [] ∧
      (analyze now name { wikipedia := some {}, news := some [] }).promises = [] ∧
      (analyze now name { wikipedia := some {}, news := some [] }).bills = [] := by
  intro now name
  exact ⟨rfl, rfl, rfl, rfl, rfl⟩

/-- C8: the promise metrics calculator is deterministic (a pure function
of the promise list alone); recomputing metrics on a report that already
carries a metrics object replaces the aggregate completely, so the final
pass is idempotent; and the report assembled by `analyze` carries exactly
the metrics recomputed from its own promise list. -/
theorem C8_metrics_recompute_overwrites :
    (∀ (r : Report) (m : Option PromiseMetrics),
      recompute_promise_metrics { r with promise_analysis := m } =
        recompute_promise_metrics r) ∧
    (∀ r : Report,
      recompute_promise_metrics (recompute_promise_metrics r) =
        recompute_promise_metrics r) ∧
    (∀ (now : Nat × Nat) (name : String) (raw_data : RawData),
      (analyze now name raw_data).promise_analysis =
        calculate_promise_metrics (analyze now name raw_data).promises) := by
  exact ⟨fun r m => rfl, fun r => rfl, fun now name raw_data => rfl⟩

/-- C9: the policy-area classifier is a pure function with first-match-wins
keyword groups: "expanding healthcare access" → Healthcare, "tax reform
and jobs" → Economy, "unrelated text" → GeneralPolicy, and its output is
always one of the eight policy areas. -/
theorem C9_policy_area_classifier_pure :
    determine_policy_area "expanding healthcare access" = "Healthcare" ∧
    determine_policy_area "tax reform and jobs" = "Economy" ∧
    determine_policy_area "unrelated text" = "General Policy" ∧
    ∀ text : String, determine_policy_area text ∈
      ["Healthcare", "Economy", "Environment", "Defense", "Education",
       "Infrastructure", "Social Policy", "General Policy"] := by
  refine ⟨by decide, by decide, by decide, ?_⟩
  intro text
  unfold determine_policy_area
  dsimp only
  split_ifs <;> simp

/-- C4 (counterexample): a news item containing the claimed commitment
keyword "will" (but none of the keywords the code actually checks news
against) yields no promise at all, refuting the claim that every news item
containing a commitment keyword from the
promise/pledge/commit/"plan to"/will/intend set yields one promise. -/
theorem C4_counterexample :
    pyContains "will"
      (pyLower ((newsItemWill.title.getD "") ++ " " ++ (newsItemWill.description.getD ""))) = true ∧
    extract_real_promises "x" {} [newsItemWill] = [] := by
  constructor <;> rfl

/-- C4 (amended): promise candidates come from exactly two sources —
news items whose title+description contains one of promise/pledge/commit/
plan (each yielding one promise whose text is the item's title), followed
by biography sentences containing one of promise/pledge/commit/"plan to"/
will/intend, the biography-derived ones capped at 3 before merging — and
the merged, scored list is capped at 6. -/
theorem C4_amended_candidate_sources :
    (∀ (name : String) (wiki_data : WikiData) (news_data : List NewsItem),
      (extract_real_promises name wiki_data news_data).map (fun p => p.promise) =
      ((news_data.filter (fun article =>
          ["promise", "pledge", "commit", "plan"].any (fun word =>
            pyContains word
              (pyLower ((article.title.getD "") ++ " " ++ (article.description.getD "")))))).map
        (fun article => article.title.getD "") ++
       ((((pySplitOn "." (pyLower (wiki_data.extract.getD ""))).filter (fun sentence =>
          ["promise", "pledge", "commit", "plan to", "will", "intend"].any (fun word =>
            pyContains word (pyLower sentence)))).map pyStrip).take 3)).take 6) ∧
    ∀ (name : String) (wiki_data : WikiData) (news_data : List NewsItem),
      (extract_real_promises name wiki_data news_data).length ≤ 6 := by
  constructor
  · intro name wiki_data news_data
    unfold extract_real_promises
    rw [← List.map_take, List.map_map, filterMap_guard
      (fun sentence =>
        ["promise", "pledge", "commit", "plan to", "will", "intend"].any (fun word =>
          pyContains word (pyLower sentence))) pyStrip]
    rw [filterMap_guard
      (fun (article : NewsItem) =>
        ["promise", "pledge", "commit", "plan"].any (fun word =>
          pyContains word
            (pyLower ((article.title.getD "") ++ " " ++ (article.description.getD "")))))
      (fun (article : NewsItem) =>
        ({ promise := article.title.getD "", made_during := "Recent statements",
           evidence := article.description.getD "", timeline := "Ongoing",
           impact := "To be determined based on implementation" } : PromiseBase))]
    simp [Function.comp, List.map_take]
    rfl
  · intro name wiki_data news_data
    exact List.length_take_le _ _

/-- C6: for every input, the report's activity, promise, bill and
controversy lists respect all four length caps simultaneously
(≤ 6, ≤ 6, ≤ 5 and ≤ 3 respectively). -/
theorem C6_report_caps :
    ∀ (now : Nat × Nat) (name : String) (raw_data : RawData),
      (analyze now name raw_data).activities.length ≤ 6 ∧
      (analyze now name raw_data).promises.length ≤ 6 ∧
      (analyze now name raw_data).bills.length ≤ 5 ∧
      (analyze now name raw_data).controversies.length ≤ 3 := by
  intro now name raw_data
  exact ⟨List.length_take_le _ _, List.length_take_le _ _,
    List.length_take_le _ _, List.length_take_le _ _⟩

/-- C7 (counterexample): when no news activity is found and the biography
fallback fires, the emitted activity's date is the bare year "2024",
which does not have the "YYYY-MM" shape — refuting the claim that every
activity the engine emits has a "YYYY-MM" date. -/
theorem C7_counterexample :
    ((analyze_real_activities (2025, 10) "x" wikiRecentWork []).map (fun a => a.date)) =
      ["2024"] ∧
    isYYYYMM "2024" = false := by
  constructor <;> rfl

/-- C7 (amended): every activity date is either of the "YYYY-MM" shape
(the news-derived activities: parsed from `publishedAt` with the trailing
`Z` normalized, or defaulted to the current month) or the literal year
"2024" (the biography-fallback activities). -/
theorem C7_amended_activity_dates :
    ∀ (now : Nat × Nat) (name : String) (wiki_data : WikiData) (news_data : List NewsItem),
      (analyze_real_activities now name wiki_data news_data).all
        (fun a => isYYYYMM a.date || a.date == "2024") = true := by
  intro now name wiki_data news_data
  rw [List.all_eq_true]
  intro a ha
  have ha' := List.mem_of_mem_take ha
  split at ha'
  · -- biography fallback
    unfold extract_wiki_activities at ha'
    obtain ⟨sentence, _, hs⟩ := List.mem_filterMap.1 ha'
    split at hs
    · cases hs
      simp
    · cases hs
  · -- news-derived activities
    obtain ⟨article, _, hs⟩ := List.mem_filterMap.1 ha'
    dsimp only at hs
    split at hs
    · cases hs
      simp [parse_news_date_shape]
    · cases hs

/-- C10: the four per-status counts reported by the metrics calculator on
any promise list produced by the heuristic extractor partition that list:
they sum to `total_promises_tracked`. -/
theorem C10_counts_partition_total :
    ∀ (name : String) (wiki_data : WikiData) (news_data : List NewsItem),
      ((calculate_promise_metrics (extract_real_promises name wiki_data news_data)).map
        (fun m => m.fulfilled_count + m.partially_fulfilled_count +
          m.in_progress_count + m.not_fulfilled_count)) =
      ((calculate_promise_metrics (extract_real_promises name wiki_data news_data)).map
        (fun m => m.total_promises_tracked)) := by
  intro name wiki_data news_data
  have hstat : ∀ p ∈ extract_real_promises name wiki_data news_data,
      p.status = "fulfilled" ∨ p.status = "partially_fulfilled" ∨
      p.status = "in_progress" ∨ p.status = "not_fulfilled" := by
    intro p hp
    rw [extract_promises_status name wiki_data news_data p hp]
    exact determine_promise_status_cases _
  cases h : (extract_real_promises name wiki_data news_data).isEmpty <;>
    simp [calculate_promise_metrics, h]
  exact countP_status_partition _ hstat

end NetaVerse
